import Mathlib

/-!
Verification of `src/backend/docker-containers/python/execute.py`.

The Python program is embedded shallowly: external effects (the child
process spawned by `subprocess.run`, wall-clock readings from
`time.time()`, success of `shutil.rmtree`, the stdin channel, the
process environment, and the behaviour of `json.loads` on the raw input
text) are supplied as explicit oracle values, and Python exceptions are
represented with `Except`.  Machine-level details that no claim touches
(the contents of the temporary directory's name, Unicode corner cases of
`str.strip`) are abstracted, and each abstraction is noted at the
definition it concerns.
-/

namespace Execute

/-- A JSON value, the in-memory form produced by `json.loads` and consumed
by `json.dumps`.  Numbers are modelled as rationals. -/
inductive Json where
  | null : Json
  | bool (b : Bool) : Json
  | num (q : Rat) : Json
  | str (s : String) : Json
  | arr (xs : List Json) : Json
  | obj (fields : List (String × Json)) : Json
deriving Repr

/-- Python truthiness (`if not code:`) of a JSON value: `None`, `False`,
`0`, `""`, `[]` and `{}` are falsy, everything else is truthy. -/
def Json.pyTruthy : Json → Bool
  | .null => false
  | .bool b => b
  | .num q => q != 0
  | .str s => s != ""
  | .arr xs => !xs.isEmpty
  | .obj fs => !fs.isEmpty

/-- Python `data.get(key, default)`: succeeds on a dict (first binding of
the key, or the default), raises `AttributeError` on any other value.
The exception's message text is abstracted to a fixed string. -/
def Json.pyGet (j : Json) (key : String) (default : Json) : Except String Json :=
  match j with
  | .obj fields =>
      match fields.lookup key with
      | some v => .ok v
      | none => .ok default
  | _ => .error "object has no attribute get"

/-- The result dictionary returned by `CodeExecutor.execute_code`
(`success`, `stdout`, `stderr`, `exit_code`, `execution_time`). -/
structure ExecutionResult where
  success : Bool
  stdout : String
  stderr : String
  exit_code : Int
  execution_time : Rat
deriving Repr, DecidableEq

/-- What became of the child process of one `subprocess.run` call once
`execute_code` has returned. -/
inductive ChildState where
  | noChild : ChildState
  | alive : ChildState
  | reaped : ChildState
deriving Repr, DecidableEq

/-- State left behind by one `execute_code` call: whether the workspace
directory (`self.temp_dir`, created by `tempfile.mkdtemp` in `__init__`)
still exists, and the fate of the child process. -/
structure ExecState where
  wsPresent : Bool
  child : ChildState
deriving Repr, DecidableEq

/-- A completed child process as reported by `subprocess.run`
(`returncode`, captured `stdout`, captured `stderr`). -/
structure CompletedProcess where
  returncode : Int
  stdout : String
  stderr : String
deriving Repr, DecidableEq

/-- Oracle for one `subprocess.run([sys.executable, code_file], ...)`
call: the child runs to completion, the wall-clock timeout expires, or
the call raises some other exception (e.g. a spawn failure). -/
inductive RunBehavior where
  | completed (p : CompletedProcess) : RunBehavior
  | timeoutExpired : RunBehavior
  | fault (msg : String) : RunBehavior
deriving Repr, DecidableEq

/-- Oracle for the fallible steps of one `execute_code` body: whether
writing `main.py` raises (`writeFault = some msg`), and what
`subprocess.run` does if it is reached. -/
structure ExecBehavior where
  writeFault : Option String
  run : RunBehavior
deriving Repr, DecidableEq

/-- Oracle for the two `time.time()` readings around `subprocess.run`,
in seconds. -/
structure Timing where
  startTime : Rat
  endTime : Rat
deriving Repr, DecidableEq

/-- The `CodeExecutor` object constructed by `__init__`: `self.timeout`
(parsed from `EXECUTION_TIMEOUT`), `self.max_memory` (from
`MAX_MEMORY`).  The workspace path `self.temp_dir` is abstracted to the
presence flag in `ExecState`. -/
structure CodeExecutor where
  timeout : Int
  max_memory : String
deriving Repr, DecidableEq

/-- Python exceptions distinguished by `execute_code`:
`subprocess.TimeoutExpired` versus anything else (carrying `str(e)`). -/
inductive PyExc where
  | timeoutExpired : PyExc
  | other (msg : String) : PyExc
deriving Repr, DecidableEq

/-- The `subprocess.run` call with `timeout=self.timeout`: on completion
it returns the completed process; on timeout it raises `TimeoutExpired`
after killing and waiting for the child (that kill-and-reap step is the
documented contract of `subprocess.run`, which the source relies on); on
a spawn failure no child exists and the exception propagates. -/
def subprocess_run (beh : RunBehavior) : Except PyExc CompletedProcess × ChildState :=
  match beh with
  | .completed p => (.ok p, .reaped)
  | .timeoutExpired => (.error .timeoutExpired, .reaped)
  | .fault msg => (.error (.other msg), .noChild)

/-- The timeout branch of `execute_code`
(`except subprocess.TimeoutExpired:`). -/
def timeoutResult (t : Int) : ExecutionResult :=
  { success := false
    stdout := ""
    stderr := "Execution timed out after " ++ toString t ++ " seconds"
    exit_code := -1
    execution_time := (t : Rat) * 1000 }

/-- The outer exception branch of `execute_code`
(`except Exception as e:`). -/
def executionErrorResult (msg : String) : ExecutionResult :=
  { success := false
    stdout := ""
    stderr := "Execution error: " ++ msg
    exit_code := -1
    execution_time := 0 }

/-- The `try` body of `execute_code` up to and including the inner
`try/except subprocess.TimeoutExpired`: write `main.py` (may raise),
record `start_time`, run the child, and either build the normal result,
build the timeout result, or let any other exception propagate to the
outer handler.  `execution_time` is `(time.time() - start_time) * 1000`. -/
def execAttempt (self : CodeExecutor) (beh : ExecBehavior) (tim : Timing) :
    Except String ExecutionResult × ChildState :=
  match beh.writeFault with
  | some msg => (.error msg, .noChild)
  | none =>
      match subprocess_run beh.run with
      | (.ok p, c) =>
          (.ok { success := p.returncode == 0
                 stdout := p.stdout
                 stderr := p.stderr
                 exit_code := p.returncode
                 execution_time := (tim.endTime - tim.startTime) * 1000 }, c)
      | (.error .timeoutExpired, c) => (.ok (timeoutResult self.timeout), c)
      | (.error (.other msg), c) => (.error msg, c)

/-- `CodeExecutor.cleanup`: `shutil.rmtree(self.temp_dir,
ignore_errors=True)` inside `try/except: pass`.  It returns the new
presence of the workspace directory — removed when the removal succeeds
(`rmOk`), left in place otherwise — and by construction it is a total
function: no exception can escape it. -/
def cleanup (rmOk : Bool) (wsPresent : Bool) : Bool :=
  if rmOk then false else wsPresent

/-- `CodeExecutor.execute_code(code, test_cases)`.  The `code` and
`test_cases` arguments are taken as the JSON values `main` passes in;
`test_cases` is never consulted by the body.  The outer `except Exception`
converts any escaped exception into `executionErrorResult`, and the
`finally` clause runs `cleanup` on every path before returning. -/
def CodeExecutor.execute_code (self : CodeExecutor) (code : Json) (test_cases : Json)
    (beh : ExecBehavior) (tim : Timing) (rmOk : Bool) : ExecutionResult × ExecState :=
  let att := execAttempt self beh tim
  let res : ExecutionResult :=
    match att.1 with
    | .ok r => r
    | .error msg => executionErrorResult msg
  (res, { wsPresent := cleanup rmOk true, child := att.2 })

/-- ASCII whitespace as recognised by Python `str.strip()` (space, tab,
newline, carriage return, vertical tab, form feed; Unicode whitespace is
not modelled). -/
def pyWhitespace (c : Char) : Bool :=
  c == ' ' || c == '\t' || c == '\n' || c == '\r' || c == '\x0b' || c == '\x0c'

/-- Python `s.strip()`: drop leading and trailing whitespace. -/
def pyStrip (s : String) : String :=
  ⟨((s.toList.dropWhile pyWhitespace).reverse.dropWhile pyWhitespace).reverse⟩

/-- A nonempty run of ASCII decimal digits, as a natural number. -/
def digitsToNat : List Char → Option Nat
  | [] => none
  | cs =>
      if cs.all Char.isDigit then
        some (cs.foldl (fun acc c => acc * 10 + (c.toNat - 48)) 0)
      else none

/-- Python `int(s)` on a string: strip whitespace, accept an optional
sign followed by decimal digits, otherwise raise `ValueError`
(underscore separators and non-ASCII digits are not modelled). -/
def pyIntOfString (s : String) : Option Int :=
  match (pyStrip s).toList with
  | '+' :: rest => (digitsToNat rest).map Int.ofNat
  | '-' :: rest => (digitsToNat rest).map (fun n => -(n : Int))
  | cs => (digitsToNat cs).map Int.ofNat

/-- The message of the `ValueError` that `int()` raises on a bad
literal (the quoting of the offending string follows Python's repr,
without escaping). -/
def intErrorMsg (s : String) : String :=
  "invalid literal for int() with base 10: '" ++ s ++ "'"

/-- `CodeExecutor.__init__`: read `EXECUTION_TIMEOUT` (default `"30"`)
and parse it with `int()` — a parse failure raises out of the
constructor — then read `MAX_MEMORY` (default `"128m"`).
`tempfile.mkdtemp` runs only after both reads succeed and is modelled as
infallible; the directory it creates is the workspace tracked by
`ExecState`. -/
def CodeExecutor.init (environ : String → Option String) : Except String CodeExecutor :=
  let rawTimeout := (environ "EXECUTION_TIMEOUT").getD "30"
  match pyIntOfString rawTimeout with
  | none => .error (intErrorMsg rawTimeout)
  | some t => .ok { timeout := t, max_memory := (environ "MAX_MEMORY").getD "128m" }

/-- `json.dumps` applied to the result dictionary of `execute_code`,
with the dictionary's insertion order. -/
def resultToJson (r : ExecutionResult) : Json :=
  .obj [("success", .bool r.success),
        ("stdout", .str r.stdout),
        ("stderr", .str r.stderr),
        ("exit_code", .num (r.exit_code : Rat)),
        ("execution_time", .num r.execution_time)]

/-- The world one `main()` invocation runs in: whether stdin is a tty,
the text stdin holds, the behaviour of `json.loads` on any text, the
process environment, and the oracles for the single `execute_code`
call. -/
structure MainWorld where
  stdinAtty : Bool
  stdinText : String
  loads : String → Except String Json
  environ : String → Option String
  beh : ExecBehavior
  tim : Timing
  rmOk : Bool

/-- What one `main()` invocation did: the single JSON object printed to
stdout, whether a child process was ever spawned, whether a workspace
directory was ever created, and whether one still exists at the end. -/
structure MainResult where
  output : Json
  spawned : Bool
  wsCreated : Bool
  wsPresent : Bool
deriving Repr

/-- `input_data = sys.stdin.read() if not sys.stdin.isatty() else '{}'`. -/
def MainWorld.input_data (w : MainWorld) : String :=
  if w.stdinAtty then "{}" else w.stdinText

/-- `data = json.loads(input_data) if input_data.strip() else {}`. -/
def MainWorld.dataE (w : MainWorld) : Except String Json :=
  if pyStrip w.input_data != "" then w.loads w.input_data else .ok (.obj [])

/-- The object printed by `main`'s outer `except Exception` handler:
`{"success": false, "error": "Executor error: " + str(e)}`. -/
def executorErrorJson (msg : String) : Json :=
  .obj [("success", .bool false), ("error", .str ("Executor error: " ++ msg))]

/-- The `MainResult` of a request that failed inside `main`'s `try`
before any executor existed: the executor-error object is printed, no
child was spawned, no workspace was created. -/
def executorErrorOutcome (msg : String) : MainResult :=
  { output := executorErrorJson msg, spawned := false, wsCreated := false, wsPresent := false }

/-- The `MainResult` of the `if not code:` branch:
`{"success": false, "error": "No code provided"}` is printed and `main`
returns before constructing a `CodeExecutor`. -/
def noCodeOutcome : MainResult :=
  { output := .obj [("success", .bool false), ("error", .str "No code provided")]
    spawned := false
    wsCreated := false
    wsPresent := false }

/-- `main()`: read stdin (or `'{}'` on a tty), decode it, extract `code`
and `test_cases`, reject falsy `code`, otherwise construct a
`CodeExecutor`, run `execute_code` once, and print the JSON result; the
outer `except Exception` turns any escaped exception into the
executor-error object, so `main` is a total function of its world. -/
def main (w : MainWorld) : MainResult :=
  match w.dataE with
  | .error msg => executorErrorOutcome msg
  | .ok data =>
      match data.pyGet "code" (.str "") with
      | .error msg => executorErrorOutcome msg
      | .ok code =>
          match data.pyGet "test_cases" (.arr []) with
          | .error msg => executorErrorOutcome msg
          | .ok test_cases =>
              if !code.pyTruthy then noCodeOutcome
              else
                match CodeExecutor.init w.environ with
                | .error msg => executorErrorOutcome msg
                | .ok ex =>
                    let r := ex.execute_code code test_cases w.beh w.tim w.rmOk
                    { output := resultToJson r.1
                      spawned := r.2.child != .noChild
                      wsCreated := true
                      wsPresent := r.2.wsPresent }

end Execute

namespace Execute

/-- C1: On every outcome of `execute_code` (normal exit, timeout, or
internal fault) the `finally` clause runs `cleanup`, so when the removal
succeeds the workspace directory is gone before `execute_code` returns;
and a removal failure is swallowed: the returned `ExecutionResult` is
identical whether or not the removal succeeded, and `cleanup` (a total
function here) raises nothing that could replace it. -/
theorem cleanup_always_runs_and_never_masks (self : CodeExecutor) (code test_cases : Json)
    (beh : ExecBehavior) (tim : Timing) (rmOk : Bool) :
    (self.execute_code code test_cases beh tim true).2.wsPresent = false ∧
    (self.execute_code code test_cases beh tim rmOk).1 =
      (self.execute_code code test_cases beh tim true).1 := by
  constructor
  · rfl
  · rfl

/-- C2: When the child exceeds the configured timeout, `execute_code`
returns exactly `success = false`, empty stdout, the fixed timeout
message, `exit_code = -1`, and `execution_time = timeout * 1000`
milliseconds — the configured timeout, not the elapsed time. -/
theorem execute_code_timeout (self : CodeExecutor) (code test_cases : Json)
    (tim : Timing) (rmOk : Bool) :
    (self.execute_code code test_cases ⟨none, .timeoutExpired⟩ tim rmOk).1 =
      { success := false
        stdout := ""
        stderr := "Execution timed out after " ++ toString self.timeout ++ " seconds"
        exit_code := -1
        execution_time := (self.timeout : Rat) * 1000 } := by
  rfl

/-- C3: When the child exits before the timeout, `execute_code` returns
the child's stdout, stderr and exit code verbatim, `success` true
exactly when the exit code is 0, and `execution_time` equal to
(end time − start time) converted to milliseconds. -/
theorem execute_code_normal_exit (self : CodeExecutor) (code test_cases : Json)
    (rc : Int) (out err : String) (tim : Timing) (rmOk : Bool) :
    (self.execute_code code test_cases ⟨none, .completed ⟨rc, out, err⟩⟩ tim rmOk).1 =
      { success := rc == 0
        stdout := out
        stderr := err
        exit_code := rc
        execution_time := (tim.endTime - tim.startTime) * 1000 } ∧
    ((self.execute_code code test_cases ⟨none, .completed ⟨rc, out, err⟩⟩ tim rmOk).1.success
      = true ↔ rc = 0) := by
  refine ⟨rfl, ?_⟩
  simp [CodeExecutor.execute_code, execAttempt, subprocess_run]

/-- C4: Any fault other than a normal exit or a timeout — an exception
while writing the source file, or a non-timeout exception from the
launch — is caught by the outer handler and `execute_code` returns
exactly `success = false`, empty stdout,
`stderr = "Execution error: " ++ msg` with the fault's message,
`exit_code = -1`, `execution_time = 0`; the fault never escapes. -/
theorem execute_code_fault (self : CodeExecutor) (code test_cases : Json)
    (msg : String) (run : RunBehavior) (tim : Timing) (rmOk : Bool) :
    (self.execute_code code test_cases ⟨some msg, run⟩ tim rmOk).1 =
      { success := false
        stdout := ""
        stderr := "Execution error: " ++ msg
        exit_code := -1
        execution_time := 0 } ∧
    (self.execute_code code test_cases ⟨none, .fault msg⟩ tim rmOk).1 =
      { success := false
        stdout := ""
        stderr := "Execution error: " ++ msg
        exit_code := -1
        execution_time := 0 } := by
  exact ⟨rfl, rfl⟩

/-- C7: After `execute_code` returns, no child process of the attempt is
still alive: on the timeout path the child has been killed and reaped
(the documented contract of `subprocess.run` with a timeout, which the
source relies on), and on every path the final child state is not
`alive`. -/
theorem no_child_left_alive (self : CodeExecutor) (code test_cases : Json)
    (beh : ExecBehavior) (tim : Timing) (rmOk : Bool) :
    (self.execute_code code test_cases ⟨none, .timeoutExpired⟩ tim rmOk).2.child
      = ChildState.reaped ∧
    (self.execute_code code test_cases beh tim rmOk).2.child ≠ ChildState.alive := by
  refine ⟨rfl, ?_⟩
  rcases beh with ⟨wf, run⟩
  cases wf <;> cases run <;> simp [CodeExecutor.execute_code, execAttempt, subprocess_run]

/-- C8: Two invocations with identical code and identical environment —
meaning the same executor configuration and the same behaviour of the
write and of the child process, while the clock readings and the cleanup
outcome may differ — yield results with identical `success`, `stdout`,
`stderr` and `exit_code`; only `execution_time` can differ. -/
theorem execute_code_idempotent (self : CodeExecutor) (code test_cases : Json)
    (beh : ExecBehavior) (tim₁ tim₂ : Timing) (rmOk₁ rmOk₂ : Bool) :
    (self.execute_code code test_cases beh tim₁ rmOk₁).1.success =
      (self.execute_code code test_cases beh tim₂ rmOk₂).1.success ∧
    (self.execute_code code test_cases beh tim₁ rmOk₁).1.stdout =
      (self.execute_code code test_cases beh tim₂ rmOk₂).1.stdout ∧
    (self.execute_code code test_cases beh tim₁ rmOk₁).1.stderr =
      (self.execute_code code test_cases beh tim₂ rmOk₂).1.stderr ∧
    (self.execute_code code test_cases beh tim₁ rmOk₁).1.exit_code =
      (self.execute_code code test_cases beh tim₂ rmOk₂).1.exit_code := by
  rcases beh with ⟨wf, run⟩
  cases wf <;> cases run <;>
    simp [CodeExecutor.execute_code, execAttempt, subprocess_run]

/-- C9: The `test_cases` argument is accepted but has no influence at
all: for any two values of it, `execute_code` returns the same result
and leaves the same state. -/
theorem execute_code_ignores_test_cases (self : CodeExecutor) (code : Json)
    (tc₁ tc₂ : Json) (beh : ExecBehavior) (tim : Timing) (rmOk : Bool) :
    self.execute_code code tc₁ beh tim rmOk = self.execute_code code tc₂ beh tim rmOk := by
  rfl

/-- If one `.get` on a value succeeded then the value is a dict, so any
other `.get` on it succeeds as well. -/
theorem pyGet_ok_of_pyGet_ok {j : Json} {k : String} {d v : Json}
    (h : j.pyGet k d = .ok v) (k' : String) (d' : Json) :
    ∃ v', j.pyGet k' d' = .ok v' := by
  cases j with
  | obj fields =>
      cases hl : fields.lookup k' with
      | none => exact ⟨d', by simp [Json.pyGet, hl]⟩
      | some v' => exact ⟨v', by simp [Json.pyGet, hl]⟩
  | null => simp [Json.pyGet] at h
  | bool b => simp [Json.pyGet] at h
  | num q => simp [Json.pyGet] at h
  | str s => simp [Json.pyGet] at h
  | arr xs => simp [Json.pyGet] at h

/-- If decoding produced the empty object, `main` defaults `code` to the
empty string and reports "No code provided". -/
theorem main_decode_aux (w : MainWorld) (hdata : w.dataE = .ok (.obj [])) :
    main w = noCodeOutcome := by
  simp [main, hdata, Json.pyGet, Json.pyTruthy]

/-- If the constructor raises, no branch of `main` spawns a child or
creates a workspace. -/
theorem main_not_started (w : MainWorld) {msg : String}
    (hinit : CodeExecutor.init w.environ = .error msg) :
    (main w).spawned = false ∧ (main w).wsCreated = false := by
  cases hd : w.dataE with
  | error m => simp [main, hd, executorErrorOutcome]
  | ok data =>
      cases hc : data.pyGet "code" (.str "") with
      | error m => simp [main, hd, hc, executorErrorOutcome]
      | ok code =>
          cases ht : data.pyGet "test_cases" (.arr []) with
          | error m => simp [main, hd, hc, ht, executorErrorOutcome]
          | ok tcs =>
              by_cases hp : code.pyTruthy = true
              · simp [main, hd, hc, ht, hp, hinit, executorErrorOutcome]
              · simp only [Bool.not_eq_true] at hp
                simp [main, hd, hc, ht, hp, noCodeOutcome]

/-- C5: When the decoded request's `code` field is absent or empty
(more precisely falsy) after parsing, `main` prints the single object
`{"success": false, "error": "No code provided"}` and returns before
any `CodeExecutor` exists: no child process is spawned and no workspace
directory is created. -/
theorem main_no_code (w : MainWorld) (data code : Json)
    (hdata : w.dataE = .ok data)
    (hcode : data.pyGet "code" (.str "") = .ok code)
    (hfalsy : code.pyTruthy = false) :
    main w = noCodeOutcome := by
  obtain ⟨tcs, htcs⟩ := pyGet_ok_of_pyGet_ok hcode "test_cases" (.arr [])
  simp [main, hdata, hcode, htcs, hfalsy]

/-- Concrete run for C5: a piped request whose object decodes without a
`code` field, so `code` defaults to the empty string and `main` reports
"No code provided". -/
theorem main_no_code_witness :
    main { stdinAtty := false, stdinText := "x",
           loads := fun _ => .ok (.obj []), environ := fun _ => Option.none,
           beh := ⟨Option.none, .timeoutExpired⟩, tim := ⟨0, 0⟩, rmOk := true }
      = noCodeOutcome :=
  main_no_code _ (.obj []) (.str "") rfl rfl rfl

/-- C6: An empty or whitespace-only input channel is treated as the
empty structured object (so `main` ends in the "No code provided"
report, not a crash); a tty with no piped input is replaced by the
literal text of an empty object, with the same effect; and a text that
fails to parse yields the single well-formed object
`{"success": false, "error": "Executor error: " + msg}` with no
supervisor call and no unhandled fault — `main` is a total function. -/
theorem main_decode_failures (w : MainWorld) :
    (w.stdinAtty = false → pyStrip w.stdinText = "" → main w = noCodeOutcome) ∧
    (w.stdinAtty = true → w.loads "{}" = .ok (.obj []) → main w = noCodeOutcome) ∧
    (∀ msg, w.stdinAtty = false → pyStrip w.stdinText ≠ "" →
      w.loads w.stdinText = .error msg → main w = executorErrorOutcome msg) := by
  refine ⟨fun hna hblank => ?_, fun ha hok => ?_, fun msg hna hnb herr => ?_⟩
  · have hdata : w.dataE = .ok (.obj []) := by
      simp [MainWorld.dataE, MainWorld.input_data, hna, hblank]
    exact main_decode_aux w hdata
  · have hdata : w.dataE = .ok (.obj []) := by
      simp [MainWorld.dataE, MainWorld.input_data, ha]
      exact fun _ => hok
    exact main_decode_aux w hdata
  · have hdata : w.dataE = .error msg := by
      simp [MainWorld.dataE, MainWorld.input_data, hna, hnb]
      exact herr
    simp [main, hdata]

/-- Concrete runs for C6: a whitespace-only piped request, a tty request
with an honest `json.loads`, and an unparsable piped request. -/
theorem main_decode_failures_witness :
    main { stdinAtty := false, stdinText := "  \n",
           loads := fun _ => .error "Expecting value: line 1 column 1 (char 0)",
           environ := fun _ => Option.none,
           beh := ⟨Option.none, .timeoutExpired⟩, tim := ⟨0, 0⟩, rmOk := true }
      = noCodeOutcome ∧
    main { stdinAtty := true, stdinText := "",
           loads := fun _ => .ok (.obj []), environ := fun _ => Option.none,
           beh := ⟨Option.none, .timeoutExpired⟩, tim := ⟨0, 0⟩, rmOk := true }
      = noCodeOutcome ∧
    main { stdinAtty := false, stdinText := "not json",
           loads := fun _ => .error "Expecting value: line 1 column 1 (char 0)",
           environ := fun _ => Option.none,
           beh := ⟨Option.none, .timeoutExpired⟩, tim := ⟨0, 0⟩, rmOk := true }
      = executorErrorOutcome "Expecting value: line 1 column 1 (char 0)" :=
  ⟨(main_decode_failures _).1 rfl rfl,
   (main_decode_failures _).2.1 rfl rfl,
   (main_decode_failures _).2.2 _ rfl (by decide) rfl⟩

/-- C10: With `EXECUTION_TIMEOUT` set to a string `int()` rejects, the
constructor raises, the outermost handler catches it, and `main` spawns
no child and creates no workspace; when the constructor is reached (a
truthy `code` was decoded) the single printed object is
`{"success": false, "error": "Executor error: " + msg}` with the
`ValueError` message.  When `EXECUTION_TIMEOUT` is unset the timeout is
30, and when `MAX_MEMORY` is unset the memory limit is `"128m"`, both
resolved in the one constructor call of the invocation. -/
theorem config_env_handling (w : MainWorld) :
    (pyIntOfString ((w.environ "EXECUTION_TIMEOUT").getD "30") = Option.none →
      (main w).spawned = false ∧ (main w).wsCreated = false ∧
      (∀ data code, w.dataE = .ok data → data.pyGet "code" (.str "") = .ok code →
        code.pyTruthy = true →
        main w = executorErrorOutcome
          (intErrorMsg ((w.environ "EXECUTION_TIMEOUT").getD "30")))) ∧
    (w.environ "EXECUTION_TIMEOUT" = Option.none →
      CodeExecutor.init w.environ =
        .ok { timeout := 30, max_memory := (w.environ "MAX_MEMORY").getD "128m" }) ∧
    (w.environ "MAX_MEMORY" = Option.none → ∀ ex,
      CodeExecutor.init w.environ = .ok ex → ex.max_memory = "128m") := by
  refine ⟨fun hbad => ?_, fun hto => ?_, fun hmm ex hex => ?_⟩
  · have hinit : CodeExecutor.init w.environ =
        .error (intErrorMsg ((w.environ "EXECUTION_TIMEOUT").getD "30")) := by
      simp [CodeExecutor.init, hbad]
    refine ⟨?_, ?_, fun data code hdata hcode htruthy => ?_⟩
    · exact (main_not_started w hinit).1
    · exact (main_not_started w hinit).2
    · obtain ⟨tcs, htcs⟩ := pyGet_ok_of_pyGet_ok hcode "test_cases" (.arr [])
      simp [main, hdata, hcode, htcs, htruthy, hinit]
  · simp [CodeExecutor.init, hto, pyIntOfString, pyStrip, digitsToNat]
    rfl
  · rcases h30 : pyIntOfString ((w.environ "EXECUTION_TIMEOUT").getD "30") with _ | t <;>
      simp [CodeExecutor.init, h30] at hex
    rw [← hex]
    simp [hmm]

/-- Concrete runs for C10: an environment whose `EXECUTION_TIMEOUT` is
the unparsable string `"abc"` (with a request carrying real code), and
an empty environment exercising both defaults. -/
theorem config_env_handling_witness :
    (main { stdinAtty := false, stdinText := "req",
            loads := fun _ => .ok (.obj [("code", .str "print(1)")]),
            environ := fun k => if k = "EXECUTION_TIMEOUT" then some "abc" else Option.none,
            beh := ⟨Option.none, .timeoutExpired⟩, tim := ⟨0, 0⟩, rmOk := true }).spawned
      = false ∧
    main { stdinAtty := false, stdinText := "req",
           loads := fun _ => .ok (.obj [("code", .str "print(1)")]),
           environ := fun k => if k = "EXECUTION_TIMEOUT" then some "abc" else Option.none,
           beh := ⟨Option.none, .timeoutExpired⟩, tim := ⟨0, 0⟩, rmOk := true }
      = executorErrorOutcome "invalid literal for int() with base 10: 'abc'" ∧
    CodeExecutor.init (fun _ => Option.none) = .ok { timeout := 30, max_memory := "128m" } :=
  ⟨((config_env_handling _).1 (by decide)).1,
   ((config_env_handling _).1 (by decide)).2.2 (.obj [("code", .str "print(1)")])
     (.str "print(1)") rfl rfl rfl,
   (config_env_handling { stdinAtty := false, stdinText := "req",
                          loads := fun _ => .ok (.obj [("code", .str "print(1)")]),
                          environ := fun _ => Option.none,
                          beh := ⟨Option.none, .timeoutExpired⟩,
                          tim := ⟨0, 0⟩, rmOk := true }).2.1 rfl⟩

end Execute
